import Mathlib

/-!
Shallow embedding of the BontempApp Firebase Cloud Functions backend
(`functions/index.js`): three handlers over a Firestore-like document store.

* `updateLikesCount` — Firestore trigger on `pubblicazioni/{pubId}/likes/{userId}`:
  recounts the `likes` subcollection and overwrites the parent post's `likes` field.
* `calculateDailyWinner` — scheduled job: queries posts of the trailing 24 hours
  (ordered by `timestamp` descending), scans for the post with the most likes
  (strict improvement, so the first post encountered with the maximal count wins),
  and writes the result to `configurazioniApp/vincitoreDelGiorno`.
* `postComment` — HTTPS callable: authentication and input validation, a Gemini
  safety-classifier gate, then persistence of the comment record.

External effects (classifier call, store reads/writes, server timestamps) are
embedded as explicitly passed outcomes, so every handler is a total function of
its inputs and the injected effect results.
-/

namespace Bontemp

/-! ### JavaScript-level primitives -/

/-- A JavaScript value as it can appear in a callable request payload.
A missing field is `vUndefined` (destructuring yields `undefined`). -/
inductive JSVal where
  | vStr (s : String)
  | vNum (n : Int)
  | vBool (b : Bool)
  | vNull
  | vUndefined
  deriving DecidableEq

/-- JavaScript truthiness of a value (`!x` negates this). -/
def JSVal.truthy : JSVal → Bool
  | .vStr s => s != ""
  | .vNum n => n != 0
  | .vBool b => b
  | .vNull => false
  | .vUndefined => false

/-- `typeof x === 'string'`. -/
def JSVal.isString : JSVal → Bool
  | .vStr _ => true
  | _ => false

/-- The string payload of a `vStr`; only used after `isString` succeeded. -/
def JSVal.asStr : JSVal → String
  | .vStr s => s
  | _ => ""

/-- JavaScript `a || dflt` on an optional string field: a missing field and an
empty string are both falsy, so both fall back to the default. -/
def jsOrStr (v : Option String) (dflt : String) : String :=
  match v with
  | some s => if s == "" then dflt else s
  | none => dflt

/-- JavaScript `a || b` where both operands are optional string fields. -/
def jsOrOpt (v fallback : Option String) : Option String :=
  match v with
  | some s => if s == "" then fallback else some s
  | none => fallback

/-- JavaScript `a || null` on an optional string field. -/
def jsOrNull (v : Option String) : Option String :=
  match v with
  | some s => if s == "" then none else some s
  | none => none

/-- JavaScript `String.prototype.trim`: strip whitespace from both ends. -/
def jsTrim (l : List Char) : List Char :=
  ((l.dropWhile Char.isWhitespace).reverse.dropWhile Char.isWhitespace).reverse

/-- Does the second list start with the first one? -/
def startsWithChars : List Char → List Char → Bool
  | [], _ => true
  | _ :: _, [] => false
  | p :: ps, c :: cs => p == c && startsWithChars ps cs

/-- JavaScript `String.prototype.includes`: does `pat` occur as a contiguous
run inside the list? -/
def hasSubstringChars (pat : List Char) : List Char → Bool
  | [] => pat.isEmpty
  | c :: cs => startsWithChars pat (c :: cs) || hasSubstringChars pat cs

/-- `response.text().trim().toUpperCase()` from `postComment`. -/
def jsNormalizeVerdict (s : String) : List Char :=
  (jsTrim s.toList).map Char.toUpper

/-- A server-assigned timestamp (`FieldValue.serverTimestamp()`): the concrete
instant is chosen by the store, so the embedding keeps only the sentinel. -/
inductive TsVal where
  | server
  deriving DecidableEq

/-! ### Errors -/

/-- The `HttpsError` codes used by `postComment`. -/
inductive ErrCode where
  | unauthenticated
  | permissionDenied
  | invalidArgument
  | internal
  deriving DecidableEq

/-- A `functions.https.HttpsError`: a typed code plus a user-facing message. -/
structure HttpsError where
  code : ErrCode
  message : String
  deriving DecidableEq

/-- Any other JavaScript exception (network failure, store failure, ...);
`detail` is its diagnostic payload. -/
structure JsError where
  detail : String
  deriving DecidableEq

/-- What a `throw` inside the `try` block of `postComment` can carry. -/
inductive Thrown where
  | https (e : HttpsError)
  | js (e : JsError)
  deriving DecidableEq

/-- What a background (non-callable) handler invocation yields to the platform:
the JavaScript `null` return, or an escaped exception. -/
inductive JSRet where
  | null
  | thrown (e : JsError)
  deriving DecidableEq

/-! ### Caller identity and request payload -/

/-- The decoded ID-token claims used by `postComment`
(`context.auth.token`). -/
structure AuthToken where
  sign_in_provider : String
  name : Option String
  picture : Option String
  deriving DecidableEq

/-- `context.auth`: the verified caller identity attached to a callable. -/
structure AuthContext where
  uid : String
  token : AuthToken
  deriving DecidableEq

/-- The callable request payload `data`, destructured as `{pubId, text}`;
missing fields read as `vUndefined`. -/
structure RequestData where
  pubId : JSVal
  text : JSVal
  deriving DecidableEq

/-- The Gemini classifier response as `postComment` consumes it:
`response.promptFeedback?.blockReason` and `response.text()`. -/
structure ClassifierResponse where
  blockReason : Option String
  text : String
  deriving DecidableEq

/-! ### postComment -/

/-- The comment record persisted to
`pubblicazioni/{pubId}/comments`. -/
structure CommentData where
  text : String
  userId : String
  userName : String
  userImage : Option String
  timestamp : TsVal
  flagCount : Nat
  isHidden : Bool
  deriving DecidableEq

/-- One `add` to a post's `comments` subcollection. -/
structure CommentWrite where
  pubId : String
  data : CommentData
  deriving DecidableEq

/-- The callable success payload `{success: true}`. -/
structure SuccessResp where
  success : Bool
  deriving DecidableEq

def msgAuth : String := "Devi essere autenticato per commentare."

def msgAnon : String := "Gli utenti anonimi non possono commentare. Accedi con Google."

def msgPubId : String := "pubId mancante o non valido."

def msgTextRequired : String := "Il testo del commento è obbligatorio."

def msgEmptyComment : String := "Il commento non può essere vuoto."

def msgTooLong : String := "Il commento è troppo lungo (max 500 caratteri)."

def msgGuidelines : String := "Il tuo commento viola le linee guida della community."

def msgRetry : String := "Errore durante l\x27invio del commento. Riprova."

/-- Steps 1 and 2 of `postComment` (authentication check, input validation);
these run before the `try` block, so their `HttpsError`s propagate directly.
On success: the caller context, the post id, and the trimmed comment text. -/
def preChecks (auth : Option AuthContext) (data : RequestData) :
    Except HttpsError (AuthContext × String × String) :=
  match auth with
  | none => .error ⟨.unauthenticated, msgAuth⟩
  | some ctx =>
    if ctx.token.sign_in_provider == "anonymous" then
      .error ⟨.permissionDenied, msgAnon⟩
    else if !data.pubId.truthy || !data.pubId.isString then
      .error ⟨.invalidArgument, msgPubId⟩
    else if !data.text.truthy || !data.text.isString then
      .error ⟨.invalidArgument, msgTextRequired⟩
    else
      let trimmedText := (jsTrim data.text.asStr.toList).asString
      if trimmedText.length == 0 then
        .error ⟨.invalidArgument, msgEmptyComment⟩
      else if trimmedText.length > 500 then
        .error ⟨.invalidArgument, msgTooLong⟩
      else
        .ok (ctx, data.pubId.asStr, trimmedText)

/-- The comment record built in step 4 of `postComment`. -/
def mkCommentData (ctx : AuthContext) (trimmedText : String) : CommentData :=
  { text := trimmedText,
    userId := ctx.uid,
    userName := jsOrStr ctx.token.name "Utente",
    userImage := jsOrNull ctx.token.picture,
    timestamp := .server,
    flagCount := 0,
    isHidden := false }

/-- The `try` block of `postComment` (steps 3 to 5): classifier call, safety
gate, persistence. `classify` is the awaited outcome of the Gemini call and
`persist` the awaited outcome of the Firestore `add`; on success the performed
comment write is returned alongside the response. -/
def commentTryBlock (ctx : AuthContext) (pubId trimmedText : String)
    (classify : Except JsError ClassifierResponse)
    (persist : Except JsError Unit) :
    Except Thrown (SuccessResp × List CommentWrite) :=
  match classify with
  | .error e => .error (.js e)
  | .ok response =>
    let responseText := jsNormalizeVerdict response.text
    if response.blockReason.isSome || hasSubstringChars "UNSAFE".toList responseText then
      .error (.https ⟨.invalidArgument, msgGuidelines⟩)
    else
      match persist with
      | .error e => .error (.js e)
      | .ok _ => .ok (⟨true⟩, [⟨pubId, mkCommentData ctx trimmedText⟩])

/-- The observable outcome of one `postComment` call: the response delivered to
the caller and the comment documents written to the store. -/
structure PCResult where
  response : Except HttpsError SuccessResp
  writes : List CommentWrite

/-- `exports.postComment`: the pre-`try` checks, then the `try` block with its
catch boundary, which rethrows `HttpsError`s unchanged and converts every other
exception to `internal` with the fixed retry message. -/
def postComment (auth : Option AuthContext) (data : RequestData)
    (classify : Except JsError ClassifierResponse)
    (persist : Except JsError Unit) : PCResult :=
  match preChecks auth data with
  | .error e => ⟨.error e, []⟩
  | .ok (ctx, pubId, trimmedText) =>
    match commentTryBlock ctx pubId trimmedText classify persist with
    | .ok (resp, ws) => ⟨.ok resp, ws⟩
    | .error (.https e) => ⟨.error e, []⟩
    | .error (.js _) => ⟨.error ⟨.internal, msgRetry⟩, []⟩

/-! ### calculateDailyWinner -/

/-- A post document of the `pubblicazioni` collection as `calculateDailyWinner`
reads it. Optional fields model fields that may be absent from the document;
`likes` is the derived counter (a cardinality, hence non-negative). -/
structure PostDoc where
  id : String
  imageUrl : Option String
  thumbnailUrl : Option String
  likes : Option Nat
  userName : Option String
  userPhotoURL : Option String
  timestamp : Int
  description : Option String
  deriving DecidableEq

/-- `data.likes || 0`: a missing `likes` field counts as 0. -/
def likesOf (p : PostDoc) : Nat := p.likes.getD 0

/-- The like count as the scan compares it against `maxLikes` (initially -1). -/
def likesOfI (p : PostDoc) : Int := (likesOf p : Int)

/-- The embedded `winner` snapshot stored in the daily-winner document. -/
structure WinnerSnap where
  postId : String
  imageUrl : Option String
  thumbnailUrl : Option String
  likes : Nat
  userName : String
  userPhotoURL : String
  timestamp : Int
  description : String
  deriving DecidableEq

/-- The winner snapshot built from a post document inside the scan. -/
def mkWinnerSnap (d : PostDoc) : WinnerSnap :=
  { postId := d.id,
    imageUrl := d.imageUrl,
    thumbnailUrl := jsOrOpt d.thumbnailUrl d.imageUrl,
    likes := likesOf d,
    userName := jsOrStr d.userName "Anonimo",
    userPhotoURL := jsOrStr d.userPhotoURL "",
    timestamp := d.timestamp,
    description := jsOrStr d.description "" }

/-- The `forEach` scan of `calculateDailyWinner`: `winner` and `maxLikes` are
the two mutable variables; a post strictly exceeding the running maximum
becomes the new candidate. -/
def scanPosts : List PostDoc → Option WinnerSnap → Int → Option WinnerSnap × Int
  | [], w, m => (w, m)
  | d :: rest, w, m =>
    if likesOfI d > m then
      scanPosts rest (some (mkWinnerSnap d)) (likesOfI d)
    else
      scanPosts rest w m

/-- The document `configurazioniApp/vincitoreDelGiorno` as written by
`calculateDailyWinner`; `winner`/`message` are `none` when the branch does not
put the field into the object literal. -/
structure ConfigDoc where
  hasWinner : Bool
  winner : Option WinnerSnap
  message : Option String
  calculatedAt : TsVal
  deriving DecidableEq

/-- The store path of the singleton daily-winner document. -/
def configPath : List String := ["configurazioniApp", "vincitoreDelGiorno"]

/-- One `set` performed by the scheduled handler. -/
structure StoreWrite where
  path : List String
  doc : ConfigDoc
  deriving DecidableEq

def noPostsMessage : String := "Nessuna pubblicazione oggi"

/-- The daily-winner document computed from the (already ordered) query result:
the placeholder when the window is empty, otherwise the scanned winner. -/
def dailyWinnerDoc (posts : List PostDoc) : ConfigDoc :=
  if posts.isEmpty then
    { hasWinner := false, winner := none,
      message := some noPostsMessage, calculatedAt := .server }
  else
    { hasWinner := true, winner := (scanPosts posts none (-1)).1,
      message := none, calculatedAt := .server }

/-- One run of `exports.calculateDailyWinner`: `queryRes` is the awaited
outcome of the 24-hour window query (posts ordered by `timestamp` descending),
`writeRes` the awaited outcome of the single `set`. Every exception is caught
by the surrounding `try`, which returns `null`; a failed `set` commits
nothing. -/
def calculateDailyWinnerRun (queryRes : Except JsError (List PostDoc))
    (writeRes : Except JsError Unit) : JSRet × List StoreWrite :=
  match queryRes with
  | .error _ => (.null, [])
  | .ok posts =>
    match writeRes with
    | .error _ => (.null, [])
    | .ok _ => (.null, [⟨configPath, dailyWinnerDoc posts⟩])

/-! ### updateLikesCount -/

/-- Firestore `DocumentReference.update` on `pubblicazioni/{pubId}`: fails with
NOT_FOUND when the document does not exist, otherwise rewrites the `likes`
field of that document and no other; it never creates a document. The store is
the `pubblicazioni` collection as an association list `id ↦ post`. -/
def fsUpdate (posts : List (String × PostDoc)) (pubId : String) (n : Nat) :
    Except JsError (List (String × PostDoc)) :=
  if (posts.lookup pubId).isSome then
    .ok (posts.map (fun kv => if pubId == kv.1 then (kv.1, { kv.2 with likes := some n }) else kv))
  else
    .error ⟨"NOT_FOUND: no document to update"⟩

/-- One invocation of `exports.updateLikesCount` for post `pubId`:
`likesSnapshot` is the awaited read of the `likes` subcollection (the user ids
of its documents), `writeOk` whether the platform write succeeds when
attempted. The handler counts the snapshot, updates the parent post, and
catches every error, returning `null` with the store untouched. -/
def updateLikesCount (posts : List (String × PostDoc)) (pubId : String)
    (likesSnapshot : Except JsError (List String)) (writeOk : Bool) :
    JSRet × List (String × PostDoc) :=
  match likesSnapshot with
  | .error _ => (.null, posts)
  | .ok snap =>
    if writeOk then
      match fsUpdate posts pubId snap.length with
      | .ok posts2 => (.null, posts2)
      | .error _ => (.null, posts)
    else
      (.null, posts)

/-! ### Specification-side definitions for the winner selection

These two definitions follow the words of the specification (the maximum like
count of the window, and the first post of the descending-timestamp order that
attains it); the theorems compare the scan of the source against them. -/

/-- The maximum like count over the query result, a missing field counting 0. -/
def maxLikes (posts : List PostDoc) : Nat :=
  posts.foldr (fun p acc => max (likesOf p) acc) 0

/-- The first post (in the given order) whose like count equals the maximum
like count of the list. -/
def firstMaxPost (posts : List PostDoc) : Option PostDoc :=
  posts.find? (fun q => likesOf q == maxLikes posts)

/-! ### Lemmas on the winner scan -/

/-- The running maximum after scanning `posts` starting from `m`
(`maxLikes` in the source, initialized to -1). -/
def maxFrom (m : Int) (posts : List PostDoc) : Int :=
  posts.foldl (fun acc p => max acc (likesOfI p)) m

theorem maxFrom_nil (m : Int) : maxFrom m [] = m := rfl

theorem maxFrom_cons (m : Int) (p : PostDoc) (l : List PostDoc) :
    maxFrom m (p :: l) = maxFrom (max m (likesOfI p)) l := rfl

theorem le_maxFrom (l : List PostDoc) : ∀ m : Int, m ≤ maxFrom m l := by
  induction l with
  | nil => intro m; exact le_of_eq (maxFrom_nil m).symm
  | cons p rest ih =>
    intro m
    rw [maxFrom_cons]
    exact le_trans (le_max_left _ _) (ih _)

theorem maxFrom_max (l : List PostDoc) :
    ∀ a b : Int, maxFrom (max a b) l = max a (maxFrom b l) := by
  induction l with
  | nil => intro a b; rfl
  | cons p rest ih =>
    intro a b
    rw [maxFrom_cons, max_assoc, ih, maxFrom_cons]

theorem likesOfI_nonneg (p : PostDoc) : 0 ≤ likesOfI p := by
  unfold likesOfI
  omega

/-- The scan, characterized: starting from state `(w, m)`, either some post of
the list strictly beats `m` — and then the final winner is the first post of
the list attaining the overall running maximum — or the state is unchanged. -/
theorem scanPosts_spec (l : List PostDoc) : ∀ (w : Option WinnerSnap) (m : Int),
    scanPosts l w m =
      if maxFrom m l > m then
        ((l.find? (fun q => likesOfI q == maxFrom m l)).map mkWinnerSnap, maxFrom m l)
      else (w, m) := by
  induction l with
  | nil =>
    intro w m
    simp [scanPosts, maxFrom_nil]
  | cons p rest ih =>
    intro w m
    have hge : likesOfI p ≤ maxFrom (likesOfI p) rest := le_maxFrom rest _
    simp only [scanPosts]
    by_cases h1 : likesOfI p > m
    · have hcons : maxFrom m (p :: rest) = maxFrom (likesOfI p) rest := by
        rw [maxFrom_cons, max_eq_right (le_of_lt h1)]
      rw [if_pos h1, ih]
      by_cases h2 : maxFrom (likesOfI p) rest > likesOfI p
      · have hcond : maxFrom m (p :: rest) > m := by rw [hcons]; omega
        have hne : ¬ ((likesOfI p == maxFrom (likesOfI p) rest) = true) := by
          simp only [beq_iff_eq]
          omega
        rw [if_pos h2, if_pos hcond, hcons,
          @List.find?_cons_of_neg _ (fun q => likesOfI q == maxFrom (likesOfI p) rest) p rest hne]
      · have heq : maxFrom (likesOfI p) rest = likesOfI p := by omega
        have hcond : maxFrom m (p :: rest) > m := by rw [hcons, heq]; exact h1
        rw [if_neg h2, if_pos hcond, hcons, heq,
          @List.find?_cons_of_pos _ (fun q => likesOfI q == likesOfI p) p rest
            (beq_self_eq_true (likesOfI p))]
        rfl
    · have hcons : maxFrom m (p :: rest) = maxFrom m rest := by
        rw [maxFrom_cons, max_eq_left (by omega)]
      rw [if_neg h1, ih]
      by_cases h2 : maxFrom m rest > m
      · have hcond : maxFrom m (p :: rest) > m := by rw [hcons]; exact h2
        have hne : ¬ ((likesOfI p == maxFrom m rest) = true) := by
          simp only [beq_iff_eq]
          omega
        rw [if_pos h2, if_pos hcond, hcons,
          @List.find?_cons_of_neg _ (fun q => likesOfI q == maxFrom m rest) p rest hne]
      · have hcond : ¬ maxFrom m (p :: rest) > m := by rw [hcons]; exact h2
        rw [if_neg h2, if_neg hcond]

theorem maxFrom_cons_negOne (p : PostDoc) (l : List PostDoc) :
    maxFrom (-1) (p :: l) = max (likesOfI p) (maxFrom (-1) l) := by
  rw [maxFrom_cons, max_comm (-1 : Int) (likesOfI p), maxFrom_max]

theorem maxLikes_nil : maxLikes [] = 0 := rfl

theorem maxLikes_cons (p : PostDoc) (l : List PostDoc) :
    maxLikes (p :: l) = max (likesOf p) (maxLikes l) := rfl

/-- On a non-empty window the scan's running maximum is exactly the maximum
like count of the list. -/
theorem maxFrom_eq_maxLikes (posts : List PostDoc) (h : posts ≠ []) :
    maxFrom (-1) posts = (maxLikes posts : Int) := by
  induction posts with
  | nil => exact absurd rfl h
  | cons p rest ih =>
    cases rest with
    | nil =>
      rw [maxFrom_cons_negOne, maxFrom_nil, maxLikes_cons, maxLikes_nil]
      unfold likesOfI
      omega
    | cons q rest2 =>
      rw [maxFrom_cons_negOne, ih (List.cons_ne_nil q rest2), maxLikes_cons p (q :: rest2)]
      unfold likesOfI
      omega

theorem find?_ext {α : Type} (f g : α → Bool) (l : List α) (h : ∀ a, f a = g a) :
    l.find? f = l.find? g := by
  induction l with
  | nil => rfl
  | cons a t ih =>
    rw [List.find?_cons, List.find?_cons, h a, ih]

/-- The scan of the source equals the specification-side selection: the first
post of the window attaining the maximum like count. -/
theorem scan_eq_firstMax (posts : List PostDoc) (h : posts ≠ []) :
    (scanPosts posts none (-1)).1 = (firstMaxPost posts).map mkWinnerSnap := by
  have hM := maxFrom_eq_maxLikes posts h
  have hgt : maxFrom (-1) posts > -1 := by rw [hM]; omega
  have hpred : ∀ q, (likesOfI q == maxFrom (-1) posts) = (likesOf q == maxLikes posts) := by
    intro q
    rw [hM]
    unfold likesOfI
    rw [Bool.eq_iff_iff, beq_iff_eq, beq_iff_eq]
    exact Nat.cast_inj
  rw [scanPosts_spec posts none (-1), if_pos hgt,
    find?_ext _ _ posts hpred]
  rfl

theorem maxLikes_attained (posts : List PostDoc) (h : posts ≠ []) :
    ∃ q ∈ posts, likesOf q = maxLikes posts := by
  induction posts with
  | nil => exact absurd rfl h
  | cons p rest ih =>
    cases rest with
    | nil =>
      refine ⟨p, List.mem_cons_self p [], ?_⟩
      rw [maxLikes_cons, maxLikes_nil]
      omega
    | cons q2 rest2 =>
      obtain ⟨q, hq, hql⟩ := ih (List.cons_ne_nil q2 rest2)
      by_cases hc : likesOf p ≥ maxLikes (q2 :: rest2)
      · refine ⟨p, List.mem_cons_self p _, ?_⟩
        show likesOf p = max (likesOf p) (maxLikes (q2 :: rest2))
        omega
      · refine ⟨q, List.mem_cons_of_mem p hq, ?_⟩
        show likesOf q = max (likesOf p) (maxLikes (q2 :: rest2))
        omega

theorem likesOf_le_maxLikes (posts : List PostDoc) :
    ∀ q ∈ posts, likesOf q ≤ maxLikes posts := by
  induction posts with
  | nil => intro q hq; cases hq
  | cons p rest ih =>
    intro q hq
    rw [maxLikes_cons]
    rcases List.mem_cons.mp hq with h | h
    · subst h; omega
    · have := ih q h; omega

/-- In a list sorted by `timestamp` descending, the first element satisfying a
predicate has the latest timestamp among all elements satisfying it. -/
theorem find?_first_latest (f : PostDoc → Bool) (l : List PostDoc)
    (hs : l.Pairwise (fun a b => b.timestamp ≤ a.timestamp))
    (p : PostDoc) (hp : l.find? f = some p) :
    ∀ q ∈ l, f q = true → q.timestamp ≤ p.timestamp := by
  induction l with
  | nil => simp at hp
  | cons a t ih =>
    intro q hq hfq
    rw [List.pairwise_cons] at hs
    by_cases hfa : f a = true
    · rw [List.find?_cons_of_pos _ hfa] at hp
      injection hp with hap
      subst hap
      rcases List.mem_cons.mp hq with h | h
      · subst h; exact le_refl _
      · exact hs.1 q h
    · rw [List.find?_cons_of_neg _ hfa] at hp
      rcases List.mem_cons.mp hq with h | h
      · subst h; exact absurd hfq hfa
      · exact ih hs.2 hp q h hfq

/-! ### Lemmas on postComment -/

/-- Inversion of a passing validation: the caller is the attached identity, the
post id is the request's `pubId` string, and the validated text is the trimmed
request `text`. -/
theorem preChecks_ok_inv (auth : Option AuthContext) (data : RequestData)
    (ctx : AuthContext) (pubId trimmedText : String)
    (h : preChecks auth data = .ok (ctx, pubId, trimmedText)) :
    auth = some ctx ∧ data.pubId = .vStr pubId
      ∧ ∃ s, data.text = .vStr s ∧ trimmedText = (jsTrim s.toList).asString := by
  cases auth with
  | none => simp [preChecks] at h
  | some c =>
    unfold preChecks at h
    dsimp only [] at h
    split at h
    · simp at h
    split at h
    · simp at h
    split at h
    · simp at h
    split at h
    · simp at h
    split at h
    · simp at h
    rename_i hprov hpub htext hlen0 hlen
    simp only [Except.ok.injEq, Prod.mk.injEq] at h
    obtain ⟨hc, hpid, htt⟩ := h
    subst hc
    refine ⟨rfl, ?_, ?_⟩
    · cases hdp : data.pubId <;>
        simp [hdp, JSVal.truthy, JSVal.isString] at hpub <;>
        rw [← hpid] <;> simp [hdp, JSVal.asStr]
    · cases hdt : data.text <;>
        simp [hdt, JSVal.truthy, JSVal.isString] at htext <;>
        exact ⟨_, rfl, by rw [← htt]; simp [hdt, JSVal.asStr]⟩

/-! ### Concrete fixtures used by the witnesses -/

def ctxEx : AuthContext := ⟨"uid1", ⟨"google.com", some "Mario", some "pic.jpg"⟩⟩

def ctxAnon : AuthContext := ⟨"anon1", ⟨"anonymous", none, none⟩⟩

def dataEx : RequestData := ⟨.vStr "post1", .vStr " Bella foto! "⟩

def respSafe : ClassifierResponse := ⟨none, "SAFE"⟩

def respUnsafe : ClassifierResponse := ⟨none, "unsafe"⟩

/-! ### Claim theorems on postComment -/

/-- Claim C1: after a successful classifier call, the comment is rejected with
`InvalidArgument` if and only if the response carries an explicit block reason
or its text, trimmed and upper-cased, contains the substring "UNSAFE"; any
other verdict is treated as safe and the pipeline proceeds to persistence. -/
theorem postComment_unsafe_gate
    (auth : Option AuthContext) (data : RequestData)
    (ctx : AuthContext) (pubId trimmedText : String)
    (resp : ClassifierResponse) (persist : Except JsError Unit)
    (hpre : preChecks auth data = .ok (ctx, pubId, trimmedText)) :
    ((postComment auth data (.ok resp) persist).response
        = .error ⟨.invalidArgument, msgGuidelines⟩
      ↔ (resp.blockReason.isSome
          || hasSubstringChars "UNSAFE".toList (jsNormalizeVerdict resp.text)) = true)
    ∧ ((resp.blockReason.isSome
          || hasSubstringChars "UNSAFE".toList (jsNormalizeVerdict resp.text)) = true →
        (postComment auth data (.ok resp) persist).writes = [])
    ∧ ((resp.blockReason.isSome
          || hasSubstringChars "UNSAFE".toList (jsNormalizeVerdict resp.text)) = false →
        postComment auth data (.ok resp) (.ok ())
          = ⟨.ok ⟨true⟩, [⟨pubId, mkCommentData ctx trimmedText⟩]⟩) := by
  have hkey : ∀ per : Except JsError Unit,
      postComment auth data (.ok resp) per =
        if (resp.blockReason.isSome
            || hasSubstringChars "UNSAFE".toList (jsNormalizeVerdict resp.text)) = true then
          ⟨.error ⟨.invalidArgument, msgGuidelines⟩, []⟩
        else
          match per with
          | .error _ => ⟨.error ⟨.internal, msgRetry⟩, []⟩
          | .ok _ => ⟨.ok ⟨true⟩, [⟨pubId, mkCommentData ctx trimmedText⟩]⟩ := by
    intro per
    unfold postComment
    rw [hpre]
    unfold commentTryBlock
    dsimp only []
    by_cases hb : (resp.blockReason.isSome
        || hasSubstringChars "UNSAFE".toList (jsNormalizeVerdict resp.text)) = true
    · rw [if_pos hb, if_pos hb]
    · rw [if_neg hb, if_neg hb]
      cases per <;> rfl
  refine ⟨?_, ?_, ?_⟩
  · rw [hkey persist]
    by_cases hb : (resp.blockReason.isSome
        || hasSubstringChars "UNSAFE".toList (jsNormalizeVerdict resp.text)) = true
    · rw [if_pos hb]
      exact iff_of_true rfl hb
    · rw [if_neg hb]
      cases persist with
      | error e => exact iff_of_false (by simp) hb
      | ok u => exact iff_of_false (by simp) hb
  · intro hb
    rw [hkey persist, if_pos hb]
  · intro hb
    rw [hkey (.ok ()), if_neg (by rw [hb]; exact Bool.false_ne_true)]

/-- Witness for C1 at a concrete rejected input: a classifier verdict of
"unsafe" makes the call fail with the guidelines message. -/
theorem postComment_unsafe_gate_witness :
    (postComment (some ctxEx) dataEx (.ok respUnsafe) (.ok ())).response
      = .error ⟨.invalidArgument, msgGuidelines⟩ :=
  (postComment_unsafe_gate (some ctxEx) dataEx ctxEx "post1" "Bella foto!"
    respUnsafe (.ok ()) rfl).1.mpr rfl

/-- Claim C4: typed `HttpsError`s raised inside the pipeline reach the caller
unchanged (pre-`try` errors directly, in-`try` ones via the `instanceof`
rethrow), and every other exception is replaced by an `internal` error whose
fixed retry message does not depend on the original exception. -/
theorem postComment_error_channels
    (auth : Option AuthContext) (data : RequestData)
    (classify : Except JsError ClassifierResponse) (persist : Except JsError Unit) :
    (∀ e, preChecks auth data = .error e →
        postComment auth data classify persist = ⟨.error e, []⟩)
    ∧ (∀ e, preChecks auth data = .error e → e.code ≠ ErrCode.internal)
    ∧ (∀ ctx pubId trimmedText e,
        preChecks auth data = .ok (ctx, pubId, trimmedText) →
        commentTryBlock ctx pubId trimmedText classify persist = .error (.https e) →
        postComment auth data classify persist = ⟨.error e, []⟩)
    ∧ (∀ ctx pubId trimmedText j,
        preChecks auth data = .ok (ctx, pubId, trimmedText) →
        commentTryBlock ctx pubId trimmedText classify persist = .error (.js j) →
        postComment auth data classify persist = ⟨.error ⟨.internal, msgRetry⟩, []⟩) := by
  refine ⟨?_, ?_, ?_, ?_⟩
  · intro e he
    unfold postComment
    rw [he]
  · intro e he
    cases auth with
    | none =>
      simp only [preChecks, Except.error.injEq] at he
      rw [← he]
      decide
    | some c =>
      unfold preChecks at he
      dsimp only [] at he
      split at he
      · simp only [Except.error.injEq] at he
        rw [← he]
        decide
      split at he
      · simp only [Except.error.injEq] at he
        rw [← he]
        decide
      split at he
      · simp only [Except.error.injEq] at he
        rw [← he]
        decide
      split at he
      · simp only [Except.error.injEq] at he
        rw [← he]
        decide
      split at he
      · simp only [Except.error.injEq] at he
        rw [← he]
        decide
      simp at he
  · intro ctx pubId trimmedText e hok htb
    unfold postComment
    rw [hok]
    dsimp only []
    rw [htb]
  · intro ctx pubId trimmedText j hok htb
    unfold postComment
    rw [hok]
    dsimp only []
    rw [htb]

/-- Witness for C4: an unauthenticated call is rejected with the typed
`unauthenticated` error even though the classifier outcome is a failure. -/
theorem postComment_error_channels_witness :
    postComment none dataEx (.error ⟨"netfail"⟩) (.ok ())
      = ⟨.error ⟨.unauthenticated, msgAuth⟩, []⟩ :=
  (postComment_error_channels none dataEx (.error ⟨"netfail"⟩) (.ok ())).1
    ⟨.unauthenticated, msgAuth⟩ rfl

/-- Claim C5: a request that passes identity, validation and classification
appends exactly one comment record — trimmed text, caller uid, display name or
"Utente", display image or null, server timestamp, `flagCount` 0, `isHidden`
false — and returns `{success: true}`. -/
theorem postComment_persists_comment
    (auth : Option AuthContext) (data : RequestData)
    (ctx : AuthContext) (pubId trimmedText : String) (resp : ClassifierResponse)
    (hpre : preChecks auth data = .ok (ctx, pubId, trimmedText))
    (hsafe : (resp.blockReason.isSome
        || hasSubstringChars "UNSAFE".toList (jsNormalizeVerdict resp.text)) = false) :
    auth = some ctx
    ∧ (∃ s, data.text = .vStr s ∧ trimmedText = (jsTrim s.toList).asString)
    ∧ postComment auth data (.ok resp) (.ok ())
        = ⟨.ok { success := true },
           [{ pubId := pubId,
              data := { text := trimmedText,
                        userId := ctx.uid,
                        userName := jsOrStr ctx.token.name "Utente",
                        userImage := jsOrNull ctx.token.picture,
                        timestamp := .server,
                        flagCount := 0,
                        isHidden := false } }]⟩ := by
  obtain ⟨ha, hpid, hs⟩ := preChecks_ok_inv auth data ctx pubId trimmedText hpre
  refine ⟨ha, hs, ?_⟩
  unfold postComment
  rw [hpre]
  unfold commentTryBlock
  dsimp only []
  rw [if_neg (by rw [hsafe]; exact Bool.false_ne_true)]
  rfl

/-- Witness for C5: the concrete fixture request persists the expected
record. -/
theorem postComment_persists_comment_witness :
    some ctxEx = some ctxEx
    ∧ (∃ s, dataEx.text = JSVal.vStr s
        ∧ "Bella foto!" = (jsTrim s.toList).asString)
    ∧ postComment (some ctxEx) dataEx (.ok respSafe) (.ok ())
        = ⟨.ok { success := true },
           [{ pubId := "post1",
              data := { text := "Bella foto!",
                        userId := ctxEx.uid,
                        userName := jsOrStr ctxEx.token.name "Utente",
                        userImage := jsOrNull ctxEx.token.picture,
                        timestamp := .server,
                        flagCount := 0,
                        isHidden := false } }]⟩ :=
  postComment_persists_comment (some ctxEx) dataEx ctxEx "post1" "Bella foto!"
    respSafe rfl rfl

/-- Claim C6: a call with no attached identity fails `unauthenticated`, a call
with an anonymous-provider identity fails `permission-denied`, in both cases
independently of the request payload, classifier and store outcomes, and with
no store write. -/
theorem postComment_identity_checks_first
    (ctx : AuthContext) (data : RequestData)
    (classify : Except JsError ClassifierResponse) (persist : Except JsError Unit)
    (hanon : ctx.token.sign_in_provider = "anonymous") :
    postComment none data classify persist = ⟨.error ⟨.unauthenticated, msgAuth⟩, []⟩
    ∧ postComment (some ctx) data classify persist
        = ⟨.error ⟨.permissionDenied, msgAnon⟩, []⟩ := by
  constructor
  · rfl
  · unfold postComment preChecks
    dsimp only []
    rw [hanon]
    rfl

/-- Witness for C6 at a concrete anonymous caller. -/
theorem postComment_identity_checks_first_witness :
    postComment none dataEx (.ok respSafe) (.ok ())
      = ⟨.error ⟨.unauthenticated, msgAuth⟩, []⟩
    ∧ postComment (some ctxAnon) dataEx (.ok respSafe) (.ok ())
        = ⟨.error ⟨.permissionDenied, msgAnon⟩, []⟩ :=
  postComment_identity_checks_first ctxAnon dataEx (.ok respSafe) (.ok ()) rfl

/-- Claim C8: for a (non-anonymous) authenticated caller, a request whose
`pubId` is missing or not a string, or whose `text` is missing or not a
string, fails with `InvalidArgument` before any classifier call or store
write. -/
theorem postComment_request_shape
    (ctx : AuthContext) (data : RequestData)
    (classify : Except JsError ClassifierResponse) (persist : Except JsError Unit)
    (hprov : ctx.token.sign_in_provider ≠ "anonymous")
    (hbad : data.pubId.isString = false ∨ data.text.isString = false) :
    ∃ msg, postComment (some ctx) data classify persist
      = ⟨.error ⟨.invalidArgument, msg⟩, []⟩ := by
  have hprovb : (ctx.token.sign_in_provider == "anonymous") = false :=
    beq_eq_false_iff_ne.mpr hprov
  unfold postComment preChecks
  dsimp only []
  rw [hprovb]
  cases hbad with
  | inl h =>
    have hc : (!data.pubId.truthy || !data.pubId.isString) = true := by
      rw [h]
      simp
    rw [hc]
    exact ⟨msgPubId, rfl⟩
  | inr h =>
    cases hpt : (!data.pubId.truthy || !data.pubId.isString) with
    | true =>
      exact ⟨msgPubId, rfl⟩
    | false =>
      have hc : (!data.text.truthy || !data.text.isString) = true := by
        rw [h]
        simp
      rw [hc]
      exact ⟨msgTextRequired, rfl⟩

/-- Witness for C8: a request with a missing `pubId` field is rejected with
`InvalidArgument`. -/
theorem postComment_request_shape_witness :
    ∃ msg, postComment (some ctxEx) ⟨.vUndefined, .vStr "ciao"⟩
        (.ok respSafe) (.ok ())
      = ⟨.error ⟨.invalidArgument, msg⟩, []⟩ :=
  postComment_request_shape ctxEx ⟨.vUndefined, .vStr "ciao"⟩
    (.ok respSafe) (.ok ()) (by decide) (Or.inl rfl)

/-! ### Claim theorems on calculateDailyWinner -/

/-- Claim C2: on a non-empty query result (ordered by timestamp descending),
the winner written is the first post of that order whose like count (missing
field counting 0) equals the maximum like count of the list; hence among posts
with equal maximal likes the one with the latest timestamp is selected. -/
theorem calculateDailyWinner_selects_latest_max (posts : List PostDoc)
    (hne : posts ≠ [])
    (hsort : posts.Pairwise (fun a b => b.timestamp ≤ a.timestamp)) :
    ∃ p, firstMaxPost posts = some p
      ∧ (dailyWinnerDoc posts).hasWinner = true
      ∧ (dailyWinnerDoc posts).winner = some (mkWinnerSnap p)
      ∧ (calculateDailyWinnerRun (.ok posts) (.ok ())).2
          = [⟨configPath, dailyWinnerDoc posts⟩]
      ∧ p ∈ posts
      ∧ likesOf p = maxLikes posts
      ∧ (∀ q ∈ posts, likesOf q ≤ likesOf p)
      ∧ (∀ q ∈ posts, likesOf q = likesOf p → q.timestamp ≤ p.timestamp) := by
  obtain ⟨q0, hq0, hq0l⟩ := maxLikes_attained posts hne
  have hsome : (posts.find? (fun q => likesOf q == maxLikes posts)).isSome = true := by
    rw [List.find?_isSome]
    exact ⟨q0, hq0, by rw [beq_iff_eq]; exact hq0l⟩
  obtain ⟨p, hp⟩ := Option.isSome_iff_exists.mp hsome
  have hpfind : firstMaxPost posts = some p := hp
  have hpl : likesOf p = maxLikes posts := by
    have := List.find?_some hp
    rwa [beq_iff_eq] at this
  have hmem : p ∈ posts := List.mem_of_find?_eq_some hp
  have hemp : posts.isEmpty = false := by
    cases posts with
    | nil => exact absurd rfl hne
    | cons a t => rfl
  have hdoc : dailyWinnerDoc posts =
      { hasWinner := true, winner := (scanPosts posts none (-1)).1,
        message := none, calculatedAt := .server } := by
    unfold dailyWinnerDoc
    rw [hemp]
    rfl
  refine ⟨p, hpfind, ?_, ?_, rfl, hmem, hpl, ?_, ?_⟩
  · rw [hdoc]
  · rw [hdoc, scan_eq_firstMax posts hne, hpfind]
    rfl
  · intro q hq
    rw [hpl]
    exact likesOf_le_maxLikes posts q hq
  · intro q hq hql
    refine find?_first_latest _ posts hsort p hp q hq ?_
    rw [beq_iff_eq, hql, hpl]

def postA : PostDoc :=
  ⟨"a", some "urlA", none, some 2, some "Anna", none, 100, none⟩

def postB : PostDoc :=
  ⟨"b", some "urlB", none, some 2, some "Bruno", none, 200, none⟩

/-- Witness for C2 on a concrete tie: two posts with 2 likes each, the later
post (`postB`, timestamp 200) listed first; the selected winner is `postB`. -/
theorem calculateDailyWinner_selects_latest_max_witness :
    ∃ p, firstMaxPost [postB, postA] = some p
      ∧ (dailyWinnerDoc [postB, postA]).hasWinner = true
      ∧ (dailyWinnerDoc [postB, postA]).winner = some (mkWinnerSnap p)
      ∧ (calculateDailyWinnerRun (.ok [postB, postA]) (.ok ())).2
          = [⟨configPath, dailyWinnerDoc [postB, postA]⟩]
      ∧ p ∈ [postB, postA]
      ∧ likesOf p = maxLikes [postB, postA]
      ∧ (∀ q ∈ [postB, postA], likesOf q ≤ likesOf p)
      ∧ (∀ q ∈ [postB, postA], likesOf q = likesOf p → q.timestamp ≤ p.timestamp) :=
  calculateDailyWinner_selects_latest_max [postB, postA] (by decide)
    (by simp [postA, postB, List.pairwise_cons])

/-- Claim C7: on an empty 24-hour window the handler performs exactly one
write, to the singleton configuration document: `hasWinner = false`, the fixed
non-empty message, a server-assigned `calculatedAt`, and no `winner` field. -/
theorem calculateDailyWinner_empty_window :
    calculateDailyWinnerRun (.ok []) (.ok ())
      = (.null, [⟨configPath,
          { hasWinner := false, winner := none,
            message := some noPostsMessage, calculatedAt := .server }⟩])
    ∧ noPostsMessage ≠ "" :=
  ⟨rfl, by decide⟩

/-! ### Claim theorems on updateLikesCount -/

theorem lookup_map_setLikes (pubId : String) (n : Nat) (l : List (String × PostDoc)) :
    (l.map (fun kv =>
        if pubId == kv.1 then (kv.1, { kv.2 with likes := some n }) else kv)).lookup pubId
      = (l.lookup pubId).map (fun p => { p with likes := some n }) := by
  induction l with
  | nil => rfl
  | cons kv t ih =>
    obtain ⟨k, v⟩ := kv
    rw [List.map_cons]
    dsimp only []
    by_cases h : (pubId == k) = true
    · rw [if_pos h]
      simp [List.lookup, h]
    · rw [if_neg h]
      have hf : (pubId == k) = false := by
        cases hkk : pubId == k
        · rfl
        · exact absurd hkk h
      simp only [List.lookup, hf]
      exact ih

/-- Claim C3: when the subcollection read and the post write both succeed, the
handler sets the post's `likes` field to exactly the cardinality of the
`likes` subcollection as read, and completes normally. -/
theorem updateLikesCount_writes_cardinality
    (posts : List (String × PostDoc)) (pubId : String) (snap : List String)
    (p : PostDoc) (hp : posts.lookup pubId = some p) :
    (updateLikesCount posts pubId (.ok snap) true).2.lookup pubId
        = some { p with likes := some snap.length }
    ∧ (updateLikesCount posts pubId (.ok snap) true).1 = .null := by
  have hrun : updateLikesCount posts pubId (.ok snap) true
      = (.null, posts.map fun kv =>
          if pubId == kv.1 then (kv.1, { kv.2 with likes := some snap.length }) else kv) := by
    unfold updateLikesCount
    dsimp only []
    unfold fsUpdate
    rw [hp]
    rfl
  rw [hrun]
  refine ⟨?_, rfl⟩
  dsimp only []
  rw [lookup_map_setLikes, hp]
  rfl

def postStoreEx : List (String × PostDoc) := [("a", postA)]

/-- Witness for C3: a snapshot of three like documents sets `likes` to 3. -/
theorem updateLikesCount_writes_cardinality_witness :
    (updateLikesCount postStoreEx "a" (.ok ["u1", "u2", "u3"]) true).2.lookup "a"
        = some { postA with likes := some 3 }
    ∧ (updateLikesCount postStoreEx "a" (.ok ["u1", "u2", "u3"]) true).1 = .null :=
  updateLikesCount_writes_cardinality postStoreEx "a" ["u1", "u2", "u3"] postA rfl

/-- Claim C10: the handler writes through a document update that fails when
the parent post does not exist, and the failure is swallowed: the set of post
documents is never changed, and a like event on a nonexistent post leaves the
store exactly as it was. -/
theorem updateLikesCount_frame (posts : List (String × PostDoc)) (pubId : String)
    (snapRes : Except JsError (List String)) (writeOk : Bool) :
    ((updateLikesCount posts pubId snapRes writeOk).2).map Prod.fst
        = posts.map Prod.fst
    ∧ (posts.lookup pubId = none →
        (updateLikesCount posts pubId snapRes writeOk).2 = posts) := by
  unfold updateLikesCount
  cases snapRes with
  | error e => exact ⟨rfl, fun _ => rfl⟩
  | ok snap =>
    cases writeOk with
    | false => exact ⟨rfl, fun _ => rfl⟩
    | true =>
      dsimp only []
      unfold fsUpdate
      cases hlk : (posts.lookup pubId).isSome with
      | false => exact ⟨rfl, fun _ => rfl⟩
      | true =>
        constructor
        · show ((posts.map fun kv =>
              if pubId == kv.1 then (kv.1, { kv.2 with likes := some snap.length })
              else kv).map Prod.fst) = posts.map Prod.fst
          rw [List.map_map]
          refine List.map_congr_left ?_
          intro kv hkv
          dsimp only [Function.comp]
          by_cases h : (pubId == kv.1) = true
          · rw [if_pos h]
          · rw [if_neg h]
        · intro hnone
          rw [hnone] at hlk
          exact Bool.noConfusion hlk

/-- Witness for C10: a like event for a post absent from the store changes
nothing. -/
theorem updateLikesCount_frame_witness :
    (updateLikesCount postStoreEx "b" (.ok ["u1"]) true).2 = postStoreEx :=
  (updateLikesCount_frame postStoreEx "b" (.ok ["u1"]) true).2 rfl

/-- Claim C9: both background handlers catch every store failure and complete
normally, returning `null`; no error escapes to the platform. -/
theorem background_handlers_return_null
    (posts : List (String × PostDoc)) (pubId : String)
    (snapRes : Except JsError (List String)) (writeOk : Bool)
    (queryRes : Except JsError (List PostDoc)) (writeRes : Except JsError Unit) :
    (updateLikesCount posts pubId snapRes writeOk).1 = .null
    ∧ (calculateDailyWinnerRun queryRes writeRes).1 = .null := by
  constructor
  · unfold updateLikesCount
    cases snapRes with
    | error e => rfl
    | ok snap =>
      cases writeOk with
      | false => rfl
      | true =>
        dsimp only []
        unfold fsUpdate
        cases hlk : (posts.lookup pubId).isSome with
        | false => rfl
        | true => rfl
  · unfold calculateDailyWinnerRun
    cases queryRes with
    | error e => rfl
    | ok ps =>
      cases writeRes with
      | error e => rfl
      | ok u => rfl

end Bontemp
